import Mathlib

/-!
Shallow embedding of the job-construction pipeline of pywren-ibm-cloud
(`pywren_ibm_cloud/job/job.py`), the compute dispatcher
(`pywren_ibm_cloud/compute/compute.py`) and the localhost handler
(`lithops/localhost/localhost.py`), together with theorems checking the
natural-language specification against this embedding.

Modelling conventions:
* Python byte strings are `List Nat` (each entry a byte value).
* Machine words are `Nat` with explicit `% 2 ^ 32` where overflow matters.
* Side effects (storage puts, runtime builds, file writes, process spawns)
  are recorded in explicit effect lists.
* Fallible collaborators (the storage handle, the runtime builder, the
  backend registry) are passed in as `Except`-valued functions.
* The interactive debugger breakpoints present in the source
  (`import pdb;pdb.set_trace()`) are modelled as no-ops.
-/

namespace PyWren

abbrev Bytes := List Nat

/-! ### MD5 (model of `hashlib.md5(...).hexdigest()` used for the runtime
docker image tag in `_inject_in_runtime_docker_image`) -/

def M32 : Nat := 2 ^ 32

/-- Addition modulo `2 ^ 32`. -/
def madd (x y : Nat) : Nat := (x + y) % M32

/-- Bitwise complement on 32-bit words. -/
def mnot (x : Nat) : Nat := Nat.xor x (M32 - 1)

/-- Left rotation of a 32-bit word by `c` bits (`0 < c < 32`). -/
def rotl32 (x c : Nat) : Nat :=
  (Nat.shiftLeft x c % M32) ||| Nat.shiftRight x (32 - c)

/-- The 64 per-round MD5 constants `K[i] = floor(2^32 * abs(sin(i+1)))`. -/
def md5K : List Nat :=
  [0xd76aa478, 0xe8c7b756, 0x242070db, 0xc1bdceee,
   0xf57c0faf, 0x4787c62a, 0xa8304613, 0xfd469501,
   0x698098d8, 0x8b44f7af, 0xffff5bb1, 0x895cd7be,
   0x6b901122, 0xfd987193, 0xa679438e, 0x49b40821,
   0xf61e2562, 0xc040b340, 0x265e5a51, 0xe9b6c7aa,
   0xd62f105d, 0x02441453, 0xd8a1e681, 0xe7d3fbc8,
   0x21e1cde6, 0xc33707d6, 0xf4d50d87, 0x455a14ed,
   0xa9e3e905, 0xfcefa3f8, 0x676f02d9, 0x8d2a4c8a,
   0xfffa3942, 0x8771f681, 0x6d9d6122, 0xfde5380c,
   0xa4beea44, 0x4bdecfa9, 0xf6bb4b60, 0xbebfbc70,
   0x289b7ec6, 0xeaa127fa, 0xd4ef3085, 0x04881d05,
   0xd9d4d039, 0xe6db99e5, 0x1fa27cf8, 0xc4ac5665,
   0xf4292244, 0x432aff97, 0xab9423a7, 0xfc93a039,
   0x655b59c3, 0x8f0ccc92, 0xffeff47d, 0x85845dd1,
   0x6fa87e4f, 0xfe2ce6e0, 0xa3014314, 0x4e0811a1,
   0xf7537e82, 0xbd3af235, 0x2ad7d2bb, 0xeb86d391]

/-- The 64 per-round MD5 shift amounts. -/
def md5S : List Nat :=
  [7, 12, 17, 22, 7, 12, 17, 22, 7, 12, 17, 22, 7, 12, 17, 22,
   5, 9, 14, 20, 5, 9, 14, 20, 5, 9, 14, 20, 5, 9, 14, 20,
   4, 11, 16, 23, 4, 11, 16, 23, 4, 11, 16, 23, 4, 11, 16, 23,
   6, 10, 15, 21, 6, 10, 15, 21, 6, 10, 15, 21, 6, 10, 15, 21]

/-- The per-round MD5 mixing function (F, G, H, I by round quarter). -/
def md5F (i b c d : Nat) : Nat :=
  if i < 16 then (b &&& c) ||| (mnot b &&& d)
  else if i < 32 then (d &&& b) ||| (mnot d &&& c)
  else if i < 48 then Nat.xor (Nat.xor b c) d
  else Nat.xor c (b ||| mnot d)

/-- The per-round MD5 message-word index. -/
def md5G (i : Nat) : Nat :=
  if i < 16 then i
  else if i < 32 then (5 * i + 1) % 16
  else if i < 48 then (3 * i + 5) % 16
  else (7 * i) % 16

/-- Little-endian 32-bit word `j` of a 64-byte block. -/
def wordLE (block : Bytes) (j : Nat) : Nat :=
  block.getD (4 * j) 0 + 256 * block.getD (4 * j + 1) 0 +
    65536 * block.getD (4 * j + 2) 0 + 16777216 * block.getD (4 * j + 3) 0

/-- One MD5 round: state `(a, b, c, d)`, round index `i`. -/
def md5Round (block : Bytes) (st : Nat × Nat × Nat × Nat) (i : Nat) :
    Nat × Nat × Nat × Nat :=
  let (a, b, c, d) := st
  let f := madd (madd (madd (md5F i b c d) a) (md5K.getD i 0)) (wordLE block (md5G i))
  (d, madd b (rotl32 f (md5S.getD i 0)), b, c)

/-- Process one 64-byte block: 64 rounds, then add into the running state. -/
def md5Block (st0 : Nat × Nat × Nat × Nat) (block : Bytes) :
    Nat × Nat × Nat × Nat :=
  let (a, b, c, d) := (List.range 64).foldl (md5Round block) st0
  (madd st0.1 a, madd st0.2.1 b, madd st0.2.2.1 c, madd st0.2.2.2 d)

/-- `n` bytes of `v`, little-endian. -/
def leBytes : Nat → Nat → Bytes
  | 0, _ => []
  | k + 1, v => v % 256 :: leBytes k (v / 256)

/-- MD5 padding: a `0x80` byte, zeros to 56 mod 64, then the 64-bit
little-endian bit length. -/
def md5Pad (msg : Bytes) : Bytes :=
  msg ++ 0x80 :: List.replicate ((64 + 56 - (msg.length + 1) % 64) % 64) 0 ++
    leBytes 8 (8 * msg.length)

/-- Split a byte list into 64-byte chunks. -/
def chunks64 (l : Bytes) : List Bytes :=
  if h : l = [] then []
  else l.take 64 :: chunks64 (l.drop 64)
termination_by l.length
decreasing_by
  simp [List.length_drop]
  exact Nat.pos_of_ne_zero (fun hl => h (List.eq_nil_of_length_eq_zero hl))

def hexDigit (n : Nat) : Char := Nat.digitChar n

def byteToHex (b : Nat) : List Char := [hexDigit (b / 16), hexDigit (b % 16)]

def bytesToHex (bs : Bytes) : String := String.mk (bs.map byteToHex).flatten

/-- `hashlib.md5(msg).hexdigest()` on a byte string. -/
def md5hex (msg : Bytes) : String :=
  let st := (chunks64 (md5Pad msg)).foldl md5Block
    (0x67452301, 0xefcdab89, 0x98badcfe, 0x10325476)
  bytesToHex (leBytes 4 st.1 ++ leBytes 4 st.2.1 ++ leBytes 4 st.2.2.1 ++
    leBytes 4 st.2.2.2)

/-- `s.encode('utf-8')` as a byte list. -/
def strBytes (s : String) : Bytes := s.toUTF8.toList.map UInt8.toNat

/-! ### Job construction (`pywren_ibm_cloud/job/job.py`) -/

/-- Storage and runtime-build side effects performed by job construction. -/
inductive Effect
  | put_data (key : String) (value : Bytes)
  | put_func (key : String) (value : Bytes)
  | build_runtime (image : String) (docker_file : String)
deriving DecidableEq, Repr

/-- The job descriptor assembled by `_create_job` (the `job_description`
dict), restricted to the fields it sets.  The host metadata sizes are kept
as the two `*_size_bytes` fields. -/
structure JobDescriptor where
  runtime_name : String
  runtime_memory : Nat
  execution_timeout : Int
  function_name : String
  extra_env : List (String × String)
  total_calls : Nat
  invoke_pool_threads : Nat
  executor_id : String
  job_id : String
  data_key : String
  data_ranges : List (Nat × Nat)
  func_key : String
  data_size_bytes : Nat
  func_module_size_bytes : Nat
deriving DecidableEq, Repr

/-- `_create_job` returns `[]` on an empty iterable and a descriptor
otherwise. -/
inductive CreateJobResult
  | empty
  | desc (d : JobDescriptor)
deriving DecidableEq, Repr

/-- The `config['pywren']` entries read by `_create_job`.  `data_limit`
is `none` when the `data_limit` key is absent; a stored value of `0`
models a configured falsy limit (the check is skipped then). -/
structure PywrenConfig where
  runtime : String
  runtime_memory : Nat
  runtime_timeout : Int
  data_limit : Option Nat
deriving Repr

/-- Modelled from the spec: the default size ceiling
`MAX_AGG_DATA_SIZE` from `pywren_ibm_cloud.config` (in MiB); the config
module is not part of the sources in scope, the spec only says a default
ceiling applies when none is configured. -/
def MAX_AGG_DATA_SIZE : Nat := 4

/-- Modelled from the spec: `create_agg_data_key` from
`pywren_ibm_cloud.storage.utils` (not in scope) builds the deterministic
aggregated-data key from the jobs prefix, the executor id and the job id. -/
def create_agg_data_key (jobsPfx executor_id job_id : String) : String :=
  jobsPfx ++ "/" ++ executor_id ++ "/" ++ job_id ++ "/aggdata.pickle"

/-- Modelled from the spec: `create_func_key` from
`pywren_ibm_cloud.storage.utils` (not in scope) builds the deterministic
function key from the jobs prefix, the executor id and the job id. -/
def create_func_key (jobsPfx executor_id job_id : String) : String :=
  jobsPfx ++ "/" ++ executor_id ++ "/" ++ job_id ++ "/func.pickle"

/-- Offsets and lengths of consecutive blobs, starting at `pos`. -/
def agg_ranges : List Bytes → Nat → List (Nat × Nat)
  | [], _ => []
  | b :: rest, pos => (pos, b.length) :: agg_ranges rest (pos + b.length)

/-- Modelled from the spec: `utils.agg_data` (not in scope) concatenates
the per-call serialized blobs into one buffer and returns it with a
parallel byte-range index, one `(offset, length)` pair per call, in input
order. -/
def agg_data (data_strs : List Bytes) : Bytes × List (Nat × Nat) :=
  (data_strs.flatten, agg_ranges data_strs 0)

/-- The fallible external collaborators of job construction: the internal
storage handle and the CLI runtime builder
(`pywren_ibm_cloud.cli.runtime.build_and_create_runtime`). -/
structure Collab where
  put_data : String → Bytes → Except String Unit
  build_and_create_runtime : String → String → Except String Unit

/-- The per-call inputs of `_create_job`.  The serializer
(`SerializeIndependent`, not in scope) is modelled from the spec as a
per-element blob function `ser` plus the pickled function-and-modules
blob `func_module_str`; `f_src` is the function source text
(`inspect.getsource(func)`). -/
structure JobInputs (α : Type) where
  jobsPfx : String
  executor_id : String
  job_id : String
  func_name : String
  f_src : String
  ser : α → Bytes
  func_module_str : Bytes
  data : List α
  runtime_memory : Option Nat
  extra_env : Option (List (String × String))
  invoke_pool_threads : Nat
  execution_timeout : Option Int

/-- Model of `_inject_in_runtime_docker_image`: tags the runtime docker
image with the md5 of the function source, asks the CLI to build the
extended runtime from `custom.dockerfile`, and on success reports the
extended image name (the source then rewrites
`job_description['runtime_name']` to it).  The filesystem staging of the
module tree and the `pdb.set_trace()` breakpoint are modelled as no-ops. -/
def inject_in_runtime_docker_image
    (build : String → String → Except String Unit)
    (runtime_name : String) (f_src : String) :
    List Effect × Except String String :=
  let func_file_name := md5hex (strBytes f_src)
  let ext_docker_image := runtime_name ++ ":" ++ func_file_name
  let ext_docker_file := "custom.dockerfile"
  ([Effect.build_runtime ext_docker_image ext_docker_file],
   match build ext_docker_image ext_docker_file with
   | Except.error e => Except.error e
   | Except.ok _ => Except.ok ext_docker_image)

/-- Model of `_create_job`.  Returns the list of side effects performed
(in order, including those performed before a raise) together with either
the raised error or the result.  Mirrors the source order: empty-iterable
short-circuit, serialization, the data-size check against
`data_limit*1024**2`, `put_data` under the aggregated-data key, then the
delivery step, which in the source is `if False: put_func(...) else:
_inject_in_runtime_docker_image(...)`. -/
def create_job {α : Type} (collab : Collab) (config : PywrenConfig)
    (inp : JobInputs α) : List Effect × Except String CreateJobResult :=
  let runtime_name := config.runtime
  let runtime_memory := inp.runtime_memory.getD config.runtime_memory
  let ext_env := inp.extra_env.getD []
  if inp.data.isEmpty then ([], Except.ok CreateJobResult.empty)
  else
    let execution_timeout := inp.execution_timeout.getD (config.runtime_timeout - 5)
    let data_strs := inp.data.map inp.ser
    let data_size_bytes := (data_strs.map List.length).sum
    let func_module_size_bytes := inp.func_module_str.length
    let data_limit := config.data_limit.getD MAX_AGG_DATA_SIZE
    if data_limit ≠ 0 ∧ data_size_bytes > data_limit * 1024 ^ 2 then
      ([], Except.error "Total data exceeded maximum size")
    else
      let data_key := create_agg_data_key inp.jobsPfx inp.executor_id inp.job_id
      let (data_bytes, data_ranges) := agg_data data_strs
      match collab.put_data data_key data_bytes with
      | Except.error e => ([Effect.put_data data_key data_bytes], Except.error e)
      | Except.ok _ =>
        let func_key := create_func_key inp.jobsPfx inp.executor_id inp.job_id
        if false then
          -- dead branch kept from the source (`if False:`)
          ([Effect.put_data data_key data_bytes,
            Effect.put_func func_key inp.func_module_str],
           Except.ok (CreateJobResult.desc
             { runtime_name := runtime_name, runtime_memory := runtime_memory,
               execution_timeout := execution_timeout,
               function_name := inp.func_name, extra_env := ext_env,
               total_calls := inp.data.length,
               invoke_pool_threads := inp.invoke_pool_threads,
               executor_id := inp.executor_id, job_id := inp.job_id,
               data_key := data_key, data_ranges := data_ranges,
               func_key := func_key, data_size_bytes := data_size_bytes,
               func_module_size_bytes := func_module_size_bytes }))
        else
          let inj := inject_in_runtime_docker_image
            collab.build_and_create_runtime runtime_name inp.f_src
          match inj.2 with
          | Except.error e =>
            (Effect.put_data data_key data_bytes :: inj.1, Except.error e)
          | Except.ok ext_docker_image =>
            (Effect.put_data data_key data_bytes :: inj.1,
             Except.ok (CreateJobResult.desc
               { runtime_name := ext_docker_image,
                 runtime_memory := runtime_memory,
                 execution_timeout := execution_timeout,
                 function_name := inp.func_name, extra_env := ext_env,
                 total_calls := inp.data.length,
                 invoke_pool_threads := inp.invoke_pool_threads,
                 executor_id := inp.executor_id, job_id := inp.job_id,
                 data_key := data_key, data_ranges := data_ranges,
                 func_key := func_key, data_size_bytes := data_size_bytes,
                 func_module_size_bytes := func_module_size_bytes }))

/-- Modelled from the spec: `utils.verify_args` (not in scope) validates
the call arguments against the function signature and returns the
normalized iterable, failing the call on a mismatch; on success it
preserves element order and count.  Modelled as the identity on the
iterable. -/
def verify_args {α : Type} (iterdata : List α) : List α := iterdata

/-- The slicing loop of `create_reduce_job`: for each entry
`total_partitions` of `parts_per_object`, append
`[map_futures[prev:prev+total_partitions]]` and advance `prev`. -/
def slice_groups {β : Type} (map_futures : List β) :
    List Nat → Nat → List (List (List β))
  | [], _ => []
  | total_partitions :: rest, prev =>
    [(map_futures.drop prev).take total_partitions] ::
      slice_groups map_futures rest (prev + total_partitions)

/-- The reduce input grouping of `create_reduce_job`: the default is one
call over all map futures (`iterdata = [[map_futures]]`); when the map
job carries `parts_per_object` and `reducer_one_per_object` is set, the
futures are sliced per object instead. -/
def reduce_iterdata {β : Type} (parts_per_object : Option (List Nat))
    (reducer_one_per_object : Bool) (map_futures : List β) :
    List (List (List β)) :=
  if parts_per_object.isSome && reducer_one_per_object then
    slice_groups map_futures (parts_per_object.getD []) 0
  else [[map_futures]]

/-- Model of `create_reduce_job`: builds the reduce input grouping,
injects the `__PW_REDUCE_JOB` sentinel into the environment (booleans are
converted to strings downstream), runs `verify_args` and delegates to
`_create_job` with the default invoke pool width. -/
def create_reduce_job {β : Type} (collab : Collab) (config : PywrenConfig)
    (jobsPfx executor_id reduce_job_id : String)
    (func_name f_src : String) (ser : List (List β) → Bytes)
    (func_module_str : Bytes)
    (map_job_parts_per_object : Option (List Nat)) (map_futures : List β)
    (reducer_one_per_object : Bool)
    (runtime_memory : Option Nat) (extra_env : Option (List (String × String)))
    (execution_timeout : Option Int) :
    List Effect × Except String CreateJobResult :=
  let iterdata := reduce_iterdata map_job_parts_per_object
    reducer_one_per_object map_futures
  let reduce_job_env := [("__PW_REDUCE_JOB", "True")]
  let ext_env := match extra_env with
    | none => reduce_job_env
    | some e => e ++ reduce_job_env
  create_job collab config
    { jobsPfx := jobsPfx, executor_id := executor_id, job_id := reduce_job_id,
      func_name := func_name, f_src := f_src, ser := ser,
      func_module_str := func_module_str, data := verify_args iterdata,
      runtime_memory := runtime_memory, extra_env := some ext_env,
      invoke_pool_threads := 128, execution_timeout := execution_timeout }

/-! ### Observation helpers on results and effect lists -/

def isOkDesc : Except String CreateJobResult → Bool
  | Except.ok (CreateJobResult.desc _) => true
  | _ => false

def descTotalCalls : Except String CreateJobResult → Option Nat
  | Except.ok (CreateJobResult.desc d) => some d.total_calls
  | _ => none

def descNumRanges : Except String CreateJobResult → Option Nat
  | Except.ok (CreateJobResult.desc d) => some d.data_ranges.length
  | _ => none

def descRuntimeName : Except String CreateJobResult → Option String
  | Except.ok (CreateJobResult.desc d) => some d.runtime_name
  | _ => none

def descDataKey : Except String CreateJobResult → Option String
  | Except.ok (CreateJobResult.desc d) => some d.data_key
  | _ => none

def descFuncKey : Except String CreateJobResult → Option String
  | Except.ok (CreateJobResult.desc d) => some d.func_key
  | _ => none

def isPutData : Effect → Bool
  | Effect.put_data _ _ => true
  | _ => false

def isPutFunc : Effect → Bool
  | Effect.put_func _ _ => true
  | _ => false

def isBuildRuntime : Effect → Bool
  | Effect.build_runtime _ _ => true
  | _ => false

def countPutData (effs : List Effect) : Nat := (effs.filter isPutData).length

def countPutFunc (effs : List Effect) : Nat := (effs.filter isPutFunc).length

def countBuildRuntime (effs : List Effect) : Nat :=
  (effs.filter isBuildRuntime).length

/-! ### Compute dispatcher (`pywren_ibm_cloud/compute/compute.py`) -/

/-- The dispatcher state after a successful `Compute.__init__`: the
configured backend name and the constructed backend handler.  `H` is the
backend handler type. -/
structure Compute (H : Type) where
  backend : String
  compute_handler : H
deriving Repr

/-- Model of `Compute.__init__`.  `resolve` models
`importlib.import_module('pywren_ibm_cloud.compute.backends.<name>')`
followed by `getattr(cb_module, 'ComputeBackend')`: it either yields the
backend constructor or fails (unknown backend name).  The constructor is
then applied to `config[backend]`; any exception in the `try` block is
logged and re-raised (`raise e`), so both failures propagate unchanged
and no dispatcher is produced. -/
def Compute.init {γ H : Type}
    (resolve : String → Except String (γ → Except String H))
    (backend : String) (backend_config : γ) : Except String (Compute H) :=
  match resolve backend with
  | Except.error e => Except.error e
  | Except.ok mkBackend =>
    match mkBackend backend_config with
    | Except.error e => Except.error e
    | Except.ok handler =>
      Except.ok { backend := backend, compute_handler := handler }

/-! ### Localhost handler (`lithops/localhost/localhost.py`) -/

/-- The fields of the `job_payload` dict read by
`LocalhostHandler.run_job`: the executor and job ids, the storage bucket
from `config['lithops']['storage_bucket']`, and the runtime name from
`job_description['runtime_name']`.  The payload value itself stands for
the full JSON document that is dumped to the job file. -/
structure JobPayload where
  executor_id : String
  job_id : String
  storage_bucket : String
  runtime_name : String
deriving DecidableEq, Repr

/-- Filesystem and process side effects of `run_job`, in order. -/
inductive LocalEffect
  | makedirs (path : String)
  | write_json (path : String) (payload : JobPayload)
  | spawn (cmd : String)
deriving DecidableEq, Repr

/-- `os.path.join` on the paths in scope: every component after the
first is relative and the components are non-empty, so joining inserts a
single separator between consecutive components. -/
def os_path_join : List String → String
  | [] => ""
  | [p] => p
  | p :: rest => p ++ "/" ++ os_path_join rest

/-- Model of `LocalhostHandler.run_job`.  `storage_dir` and `jobsPfx`
stand for the `STORAGE_DIR` and `JOBS_PREFIX` constants of
`lithops.config` (not in scope); `get_execution_cmd` is the selected
environment's launch-command builder.  The effects, in source order:
create the per-job directory, dump the full payload as JSON to
`job.json` inside it, then spawn the detached execution command against
that file (output appended to the shared log; the call does not wait). -/
def LocalhostHandler.run_job (storage_dir jobsPfx : String)
    (get_execution_cmd : String → String) (job_payload : JobPayload) :
    List LocalEffect :=
  let exec_command := get_execution_cmd job_payload.runtime_name
  let job_dir := os_path_join [storage_dir, job_payload.storage_bucket,
    jobsPfx, job_payload.executor_id, job_payload.job_id]
  let jobr_filename := os_path_join [job_dir, "job.json"]
  [LocalEffect.makedirs job_dir,
   LocalEffect.write_json jobr_filename job_payload,
   LocalEffect.spawn (exec_command ++ " run " ++ jobr_filename)]

/-! ### Concrete fixtures used to evaluate the embedding on real inputs -/

/-- Collaborators whose storage puts and runtime builds always succeed. -/
def okCollab : Collab where
  put_data := fun _ _ => Except.ok ()
  build_and_create_runtime := fun _ _ => Except.ok ()

/-- A configuration with a configured 1 MiB data limit. -/
def limit1Config : PywrenConfig where
  runtime := "ibmfunctions/action-python-v3.6"
  runtime_memory := 256
  runtime_timeout := 600
  data_limit := some 1

/-- A configuration with no configured data limit: the default ceiling
`MAX_AGG_DATA_SIZE` applies. -/
def defaultConfig : PywrenConfig where
  runtime := "ibmfunctions/action-python-v3.6"
  runtime_memory := 256
  runtime_timeout := 600
  data_limit := none

/-- Source text of a sample map function. -/
def sampleSrc : String := "def my_map_function(x):\n    return x + 7\n"

/-- Sample map-job inputs: three calls, one serialized byte each. -/
def sampleInputs : JobInputs Nat where
  jobsPfx := "pywren.jobs"
  executor_id := "a5f3e2-0"
  job_id := "M000"
  func_name := "my_map_function"
  f_src := sampleSrc
  ser := fun n => [n % 256]
  func_module_str := [128, 4, 149]
  data := [1, 2, 3]
  runtime_memory := none
  extra_env := none
  invoke_pool_threads := 128
  execution_timeout := none

/-- Inputs whose pickled function-and-modules blob is 2 MB while the
serialized data is a single byte. -/
def bigModulesInputs : JobInputs Nat :=
  { sampleInputs with data := [1], func_module_str := List.replicate 2000000 0 }

/-- Inputs whose serialized data alone is 2 MB. -/
def bigDataInputs : JobInputs Nat :=
  { sampleInputs with data := [1], ser := fun _ => List.replicate 2000000 0 }

/-- Source text of a sample reduce function. -/
def reduceSrc : String := "def my_reduce_function(results):\n    return 0\n"

/-- A serializer for reduce-call arguments (each argument is a list of
groups of map futures). -/
def reduceSer : List (List Nat) → Bytes := fun gs => [gs.length % 256]

/-- A backend registry that resolves exactly the name ibm_cf, with a
constructor that succeeds; handler and backend-config types are `Nat`. -/
def sampleRegistry : String → Except String (Nat → Except String Nat) :=
  fun backend_name =>
    if backend_name = "ibm_cf" then Except.ok (fun c => Except.ok (c + 1))
    else Except.error ("No module named pywren_ibm_cloud.compute.backends." ++
      backend_name)

/-- A backend registry whose resolved constructor itself raises. -/
def failingRegistry : String → Except String (Nat → Except String Nat) :=
  fun _ => Except.ok (fun _ => Except.error "invalid backend credentials")

/-! ## Helper lemmas -/

/-- The big fixture's function-and-modules blob is 2 MB. -/
theorem bigModules_size : bigModulesInputs.func_module_str.length = 2000000 := by
  rw [show bigModulesInputs.func_module_str = List.replicate 2000000 0 from rfl,
    List.length_replicate]

/-- The big fixture's serialized data is 2 MB. -/
theorem bigData_size :
    ((bigDataInputs.data.map bigDataInputs.ser).map List.length).sum = 2000000 := by
  rw [show (bigDataInputs.data.map bigDataInputs.ser).map List.length =
    [(List.replicate 2000000 (0 : Nat)).length] from rfl, List.length_replicate]
  rfl

/-- String concatenation is associative. -/
theorem string_append_assoc (a b c : String) : a ++ b ++ c = a ++ (b ++ c) := by
  cases a with | mk la =>
  cases b with | mk lb =>
  cases c with | mk lc =>
  show String.mk (la ++ lb ++ lc) = String.mk (la ++ (lb ++ lc))
  rw [List.append_assoc]

/-- The byte-range index has one entry per blob. -/
theorem agg_ranges_length (l : List Bytes) (pos : Nat) :
    (agg_ranges l pos).length = l.length := by
  induction l generalizing pos with
  | nil => simp [agg_ranges]
  | cons b rest ih => simp [agg_ranges, ih]

/-- The per-object slicing produces one group per `parts_per_object`
entry. -/
theorem slice_groups_length {β : Type} (futures : List β) (parts : List Nat)
    (prev : Nat) : (slice_groups futures parts prev).length = parts.length := by
  induction parts generalizing prev with
  | nil => simp [slice_groups]
  | cons t rest ih => simp [slice_groups, ih]

/-- As long as the remaining partition counts fit into the futures list,
the groups cut by `slice_groups` have exactly the requested lengths and
concatenate back to the corresponding contiguous segment. -/
theorem slice_groups_spec {β : Type} (futures : List β) :
    ∀ (parts : List Nat) (prev : Nat), prev + parts.sum ≤ futures.length →
      (((slice_groups futures parts prev).map fun c => c.flatten).map
          List.length = parts) ∧
      ((slice_groups futures parts prev).map fun c => c.flatten).flatten =
        (futures.drop prev).take parts.sum := by
  intro parts
  induction parts with
  | nil => intro prev h; simp [slice_groups]
  | cons t rest ih =>
    intro prev h
    simp only [List.sum_cons] at h
    obtain ⟨ih1, ih2⟩ := ih (prev + t) (by omega)
    have hlen : ((futures.drop prev).take t).length = t := by
      rw [List.length_take, List.length_drop]
      omega
    refine ⟨?_, ?_⟩
    · simp only [slice_groups, List.map_cons, List.flatten_cons,
        List.flatten_nil, List.append_nil, hlen, ih1]
    · simp only [slice_groups, List.map_cons, List.flatten_cons,
        List.flatten_nil, List.append_nil, ih2, List.sum_cons]
      rw [List.take_add, List.drop_drop]

/-- Structural characterization of a successful `create_job` run: the
effect trace is exactly one `put_data` of the aggregated buffer under the
aggregated-data key followed by one `build_runtime` of the md5-tagged
extension image, both collaborator calls succeeded, and the descriptor
carries the fields assembled by the source (with `runtime_name` rewritten
to the extension image). -/
theorem create_job_ok_eq {α : Type} (collab : Collab) (config : PywrenConfig)
    (inp : JobInputs α) (h : isOkDesc (create_job collab config inp).2 = true) :
    create_job collab config inp =
      ([Effect.put_data (create_agg_data_key inp.jobsPfx inp.executor_id inp.job_id)
          (inp.data.map inp.ser).flatten,
        Effect.build_runtime (config.runtime ++ ":" ++ md5hex (strBytes inp.f_src))
          "custom.dockerfile"],
       Except.ok (CreateJobResult.desc
         { runtime_name := config.runtime ++ ":" ++ md5hex (strBytes inp.f_src),
           runtime_memory := inp.runtime_memory.getD config.runtime_memory,
           execution_timeout := inp.execution_timeout.getD (config.runtime_timeout - 5),
           function_name := inp.func_name,
           extra_env := inp.extra_env.getD [],
           total_calls := inp.data.length,
           invoke_pool_threads := inp.invoke_pool_threads,
           executor_id := inp.executor_id, job_id := inp.job_id,
           data_key := create_agg_data_key inp.jobsPfx inp.executor_id inp.job_id,
           data_ranges := agg_ranges (inp.data.map inp.ser) 0,
           func_key := create_func_key inp.jobsPfx inp.executor_id inp.job_id,
           data_size_bytes := ((inp.data.map inp.ser).map List.length).sum,
           func_module_size_bytes := inp.func_module_str.length })) ∧
    collab.put_data (create_agg_data_key inp.jobsPfx inp.executor_id inp.job_id)
      (inp.data.map inp.ser).flatten = Except.ok () ∧
    collab.build_and_create_runtime
      (config.runtime ++ ":" ++ md5hex (strBytes inp.f_src))
      "custom.dockerfile" = Except.ok () := by
  unfold create_job at h ⊢
  by_cases hemp : inp.data.isEmpty = true
  · rw [if_pos hemp] at h
    exact absurd h (by simp [isOkDesc])
  · rw [if_neg hemp] at h ⊢
    dsimp only [agg_data, inject_in_runtime_docker_image] at h ⊢
    by_cases hlim : (config.data_limit.getD MAX_AGG_DATA_SIZE ≠ 0 ∧
        ((inp.data.map inp.ser).map List.length).sum >
          config.data_limit.getD MAX_AGG_DATA_SIZE * 1024 ^ 2)
    · rw [if_pos hlim] at h
      exact absurd h (by simp [isOkDesc])
    · rw [if_neg hlim] at h ⊢
      cases hput : collab.put_data
          (create_agg_data_key inp.jobsPfx inp.executor_id inp.job_id)
          (inp.data.map inp.ser).flatten with
      | error e =>
        rw [hput] at h
        exact absurd h (by simp [isOkDesc])
      | ok u =>
        cases u
        rw [hput] at h
        cases hbuild : collab.build_and_create_runtime
            (config.runtime ++ ":" ++ md5hex (strBytes inp.f_src))
            "custom.dockerfile" with
        | error e =>
          rw [hbuild] at h
          exact absurd h (by simp [isOkDesc])
        | ok v =>
          cases v
          exact ⟨rfl, rfl, rfl⟩

/-! ## Claim theorems -/

/-- Claim C4: for a reduce job with per-object grouping selected and a
map job whose `parts_per_object` sums to the number of map futures, the
futures are sliced contiguously into consecutive groups whose lengths
equal the `parts_per_object` entries, preserving the original order
(each produced call argument is the singleton list holding its group, so
`c.flatten` recovers the group). -/
theorem reduce_per_object_grouping {β : Type} (map_futures : List β)
    (parts : List Nat) (h : parts.sum = map_futures.length) :
    (((reduce_iterdata (some parts) true map_futures).map fun c =>
        c.flatten).map List.length = parts) ∧
    ((reduce_iterdata (some parts) true map_futures).map fun c =>
        c.flatten).flatten = map_futures := by
  have hb : reduce_iterdata (some parts) true map_futures =
      slice_groups map_futures parts 0 := by
    simp [reduce_iterdata]
  obtain ⟨h1, h2⟩ := slice_groups_spec map_futures parts 0 (by omega)
  refine ⟨?_, ?_⟩ <;> rw [hb]
  · exact h1
  · rw [h2, h, List.drop_zero, List.take_length]

/-- Witness for C4: five map futures sliced per object as `[2, 3]`. -/
theorem reduce_per_object_grouping_witness :
    (([2, 3] : List Nat).sum = ([10, 11, 12, 13, 14] : List Nat).length) ∧
    ((((reduce_iterdata (some [2, 3]) true ([10, 11, 12, 13, 14] : List Nat)).map
        fun c => c.flatten).map List.length = [2, 3]) ∧
      ((reduce_iterdata (some [2, 3]) true ([10, 11, 12, 13, 14] : List Nat)).map
        fun c => c.flatten).flatten = [10, 11, 12, 13, 14]) :=
  ⟨by decide, reduce_per_object_grouping [10, 11, 12, 13, 14] [2, 3] (by decide)⟩

/-- Claim C5: whenever job construction returns a descriptor (which it
does exactly for non-empty inputs that pass all steps), the byte-range
index has one entry per input element and `total_calls` records the
input length: `len(data_ranges) = total_calls = len(data)`. -/
theorem create_job_ranges_total_calls {α : Type} (collab : Collab)
    (config : PywrenConfig) (inp : JobInputs α) (hne : inp.data ≠ [])
    (h : isOkDesc (create_job collab config inp).2 = true) :
    descNumRanges (create_job collab config inp).2 = some inp.data.length ∧
    descTotalCalls (create_job collab config inp).2 = some inp.data.length := by
  obtain ⟨heq, -, -⟩ := create_job_ok_eq collab config inp h
  rw [heq]
  simp [descNumRanges, descTotalCalls, agg_ranges_length]

/-- Witness for C5: the sample three-element job yields three ranges and
`total_calls = 3`. -/
theorem create_job_ranges_total_calls_witness :
    (sampleInputs.data ≠ []) ∧
    (isOkDesc (create_job okCollab defaultConfig sampleInputs).2 = true) ∧
    (descNumRanges (create_job okCollab defaultConfig sampleInputs).2 =
        some sampleInputs.data.length ∧
      descTotalCalls (create_job okCollab defaultConfig sampleInputs).2 =
        some sampleInputs.data.length) :=
  ⟨by decide, by decide,
   create_job_ranges_total_calls okCollab defaultConfig sampleInputs
     (by decide) (by decide)⟩

/-- Claim C6: an empty input iterable short-circuits `_create_job` to an
empty result before serialization, with no side effect performed. -/
theorem create_job_empty_input {α : Type} (collab : Collab)
    (config : PywrenConfig) (inp : JobInputs α) :
    create_job collab config { inp with data := [] } =
      ([], Except.ok CreateJobResult.empty) := by
  unfold create_job
  rw [if_pos (by simp)]

/-- Claim C7: the extension docker image tag built by
`_inject_in_runtime_docker_image` is a function of the function source
text alone, so identical sources yield the identical md5 tag and the
identical extended image name. -/
theorem docker_image_tag_deterministic
    (build : String → String → Except String Unit) (runtime_name : String)
    (src1 src2 : String) (h : src1 = src2) :
    inject_in_runtime_docker_image build runtime_name src1 =
      inject_in_runtime_docker_image build runtime_name src2 ∧
    runtime_name ++ ":" ++ md5hex (strBytes src1) =
      runtime_name ++ ":" ++ md5hex (strBytes src2) := by
  subst h
  exact ⟨rfl, rfl⟩

/-- Witness for C7: building the sample function twice from the same
source gives the same staging call and the same image tag. -/
theorem docker_image_tag_deterministic_witness :
    (sampleSrc = sampleSrc) ∧
    (inject_in_runtime_docker_image okCollab.build_and_create_runtime
        "python3.6" sampleSrc =
      inject_in_runtime_docker_image okCollab.build_and_create_runtime
        "python3.6" sampleSrc ∧
     "python3.6" ++ ":" ++ md5hex (strBytes sampleSrc) =
       "python3.6" ++ ":" ++ md5hex (strBytes sampleSrc)) :=
  ⟨rfl, docker_image_tag_deterministic okCollab.build_and_create_runtime
    "python3.6" sampleSrc sampleSrc rfl⟩

/-- Claim C1 is false on the code: the size check compares only the
serialized data size against the ceiling, not data plus function plus
modules.  Counterexample: one call with one data byte but a 2 MB
function-and-modules blob under a configured 1 MiB ceiling; the combined
size exceeds the ceiling, yet the call succeeds and performs its storage
upload instead of raising. -/
theorem size_check_counterexample :
    (((bigModulesInputs.data.map bigModulesInputs.ser).map List.length).sum +
        bigModulesInputs.func_module_str.length >
      limit1Config.data_limit.getD MAX_AGG_DATA_SIZE * 1024 ^ 2) ∧
    isOkDesc (create_job okCollab limit1Config bigModulesInputs).2 = true ∧
    countPutData (create_job okCollab limit1Config bigModulesInputs).1 = 1 :=
  ⟨by
    rw [bigModules_size,
      show ((bigModulesInputs.data.map bigModulesInputs.ser).map List.length).sum = 1
        from rfl]
    decide,
   by decide, by decide⟩

/-- Claim C1 (amended): the size check compares the serialized data size
alone against the configured ceiling (the default `MAX_AGG_DATA_SIZE`
applying when none is configured, a configured falsy limit disabling the
check); when the data size exceeds the ceiling the call raises before
any storage upload or runtime build has been performed. -/
theorem size_check_data_only {α : Type} (collab : Collab)
    (config : PywrenConfig) (inp : JobInputs α)
    (hne : ¬inp.data.isEmpty = true)
    (hlim : config.data_limit.getD MAX_AGG_DATA_SIZE ≠ 0)
    (hbig : ((inp.data.map inp.ser).map List.length).sum >
      config.data_limit.getD MAX_AGG_DATA_SIZE * 1024 ^ 2) :
    create_job collab config inp =
      ([], Except.error "Total data exceeded maximum size") := by
  unfold create_job
  rw [if_neg hne, if_pos ⟨hlim, hbig⟩]

/-- Witness for the amended C1: 2 MB of serialized data under a 1 MiB
configured ceiling raises with an empty effect trace. -/
theorem size_check_data_only_witness :
    (¬bigDataInputs.data.isEmpty = true) ∧
    (limit1Config.data_limit.getD MAX_AGG_DATA_SIZE ≠ 0) ∧
    (((bigDataInputs.data.map bigDataInputs.ser).map List.length).sum >
      limit1Config.data_limit.getD MAX_AGG_DATA_SIZE * 1024 ^ 2) ∧
    create_job okCollab limit1Config bigDataInputs =
      ([], Except.error "Total data exceeded maximum size") :=
  ⟨by decide, by decide,
   by rw [bigData_size]; decide,
   size_check_data_only okCollab limit1Config bigDataInputs (by decide)
     (by decide) (by rw [bigData_size]; decide)⟩

/-- Claim C2 is false on the code: the delivery step consults no
execution-environment configuration at all.  Counterexample: a job built
against the stock (non-container) configuration still performs no upload
of the computation unit under the function key — the direct-upload
branch sits behind the constant-false conditional `if False:` — and
instead stages one extension image. -/
theorem delivery_counterexample :
    countPutFunc (create_job okCollab defaultConfig sampleInputs).1 = 0 ∧
    countBuildRuntime (create_job okCollab defaultConfig sampleInputs).1 = 1 ∧
    isOkDesc (create_job okCollab defaultConfig sampleInputs).2 = true :=
  ⟨by decide, by decide, by decide⟩

/-- Claim C2 (amended): every job-construction call that reaches the
delivery step stages the computation unit into an extension image tagged
with the md5 content hash of the function source and rewrites the job's
runtime identifier to that image, unconditionally: the upload of the
unit as an object under the function key is dead code behind a
constant-false conditional and never happens. -/
theorem delivery_always_injects {α : Type} (collab : Collab)
    (config : PywrenConfig) (inp : JobInputs α)
    (h : isOkDesc (create_job collab config inp).2 = true) :
    countPutFunc (create_job collab config inp).1 = 0 ∧
    countBuildRuntime (create_job collab config inp).1 = 1 ∧
    Effect.build_runtime (config.runtime ++ ":" ++ md5hex (strBytes inp.f_src))
        "custom.dockerfile" ∈ (create_job collab config inp).1 ∧
    descRuntimeName (create_job collab config inp).2 =
      some (config.runtime ++ ":" ++ md5hex (strBytes inp.f_src)) := by
  obtain ⟨heq, -, -⟩ := create_job_ok_eq collab config inp h
  rw [heq]
  simp [countPutFunc, countBuildRuntime, isPutFunc, isBuildRuntime,
    descRuntimeName]

/-- Witness for the amended C2 at the sample job. -/
theorem delivery_always_injects_witness :
    (isOkDesc (create_job okCollab defaultConfig sampleInputs).2 = true) ∧
    (countPutFunc (create_job okCollab defaultConfig sampleInputs).1 = 0 ∧
     countBuildRuntime (create_job okCollab defaultConfig sampleInputs).1 = 1 ∧
     Effect.build_runtime
         (defaultConfig.runtime ++ ":" ++ md5hex (strBytes sampleInputs.f_src))
         "custom.dockerfile" ∈ (create_job okCollab defaultConfig sampleInputs).1 ∧
     descRuntimeName (create_job okCollab defaultConfig sampleInputs).2 =
       some (defaultConfig.runtime ++ ":" ++ md5hex (strBytes sampleInputs.f_src))) :=
  ⟨by decide, delivery_always_injects okCollab defaultConfig sampleInputs (by decide)⟩

/-- Claim C3 is false on the code: a returned descriptor always carries a
non-empty `func_key` although no upload of the computation unit to
storage is ever performed for that key (the `put_func` branch is dead).
Counterexample: the sample job's descriptor holds the deterministic
function key while the effect trace contains no function upload. -/
theorem func_key_counterexample :
    descFuncKey (create_job okCollab defaultConfig sampleInputs).2 =
      some "pywren.jobs/a5f3e2-0/M000/func.pickle" ∧
    countPutFunc (create_job okCollab defaultConfig sampleInputs).1 = 0 :=
  ⟨by decide, by decide⟩

/-- Claim C3 (amended): a returned descriptor carries `data_key` only
when the `put_data` upload of the aggregated buffer under that key
completed successfully (a failed upload propagates the error and returns
no descriptor); `func_key` however is always set to the deterministic
function key even though no upload to storage is performed for it — the
unit is delivered through image injection instead. -/
theorem keys_vs_uploads {α : Type} (collab : Collab) (config : PywrenConfig)
    (inp : JobInputs α)
    (h : isOkDesc (create_job collab config inp).2 = true) :
    descDataKey (create_job collab config inp).2 =
      some (create_agg_data_key inp.jobsPfx inp.executor_id inp.job_id) ∧
    collab.put_data (create_agg_data_key inp.jobsPfx inp.executor_id inp.job_id)
      (inp.data.map inp.ser).flatten = Except.ok () ∧
    Effect.put_data (create_agg_data_key inp.jobsPfx inp.executor_id inp.job_id)
      (inp.data.map inp.ser).flatten ∈ (create_job collab config inp).1 ∧
    descFuncKey (create_job collab config inp).2 =
      some (create_func_key inp.jobsPfx inp.executor_id inp.job_id) ∧
    countPutFunc (create_job collab config inp).1 = 0 := by
  obtain ⟨heq, hput, -⟩ := create_job_ok_eq collab config inp h
  rw [heq]
  exact ⟨by simp [descDataKey], hput, by simp, by simp [descFuncKey],
    by simp [countPutFunc, isPutFunc]⟩

/-- Witness for the amended C3 at the sample job. -/
theorem keys_vs_uploads_witness :
    (isOkDesc (create_job okCollab defaultConfig sampleInputs).2 = true) ∧
    (descDataKey (create_job okCollab defaultConfig sampleInputs).2 =
        some (create_agg_data_key sampleInputs.jobsPfx sampleInputs.executor_id
          sampleInputs.job_id) ∧
     okCollab.put_data (create_agg_data_key sampleInputs.jobsPfx
        sampleInputs.executor_id sampleInputs.job_id)
        (sampleInputs.data.map sampleInputs.ser).flatten = Except.ok () ∧
     Effect.put_data (create_agg_data_key sampleInputs.jobsPfx
        sampleInputs.executor_id sampleInputs.job_id)
        (sampleInputs.data.map sampleInputs.ser).flatten ∈
       (create_job okCollab defaultConfig sampleInputs).1 ∧
     descFuncKey (create_job okCollab defaultConfig sampleInputs).2 =
       some (create_func_key sampleInputs.jobsPfx sampleInputs.executor_id
         sampleInputs.job_id) ∧
     countPutFunc (create_job okCollab defaultConfig sampleInputs).1 = 0) :=
  ⟨by decide, keys_vs_uploads okCollab defaultConfig sampleInputs (by decide)⟩

/-- Claim C8: constructing the compute dispatcher propagates any backend
resolution failure (unknown backend name) and any backend constructor
failure to the caller unchanged, and a successfully constructed
dispatcher always holds exactly the handler produced by the resolved
backend constructor for the configured backend — no fallback. -/
theorem compute_init_no_fallback {γ H : Type}
    (resolve : String → Except String (γ → Except String H))
    (backend : String) (backend_config : γ) :
    (∀ e, resolve backend = Except.error e →
      Compute.init resolve backend backend_config = Except.error e) ∧
    (∀ mkBackend e, resolve backend = Except.ok mkBackend →
      mkBackend backend_config = Except.error e →
      Compute.init resolve backend backend_config = Except.error e) ∧
    (∀ c, Compute.init resolve backend backend_config = Except.ok c →
      ∃ mkBackend, resolve backend = Except.ok mkBackend ∧
        mkBackend backend_config = Except.ok c.compute_handler ∧
        c.backend = backend) := by
  refine ⟨?_, ?_, ?_⟩
  · intro e he
    simp only [Compute.init, he]
  · intro mkBackend e hok herr
    simp only [Compute.init, hok, herr]
  · intro c hc
    unfold Compute.init at hc
    cases hres : resolve backend with
    | error e =>
      simp only [hres] at hc
      exact Except.noConfusion hc
    | ok mkBackend =>
      simp only [hres] at hc
      cases hmk : mkBackend backend_config with
      | error e =>
        simp only [hmk] at hc
        exact Except.noConfusion hc
      | ok handler =>
        simp only [hmk] at hc
        injection hc with hc
        subst hc
        exact ⟨mkBackend, rfl, hmk, rfl⟩

/-- Witness for C8: an unknown backend name and a failing backend
constructor both surface their error; the known backend yields the
constructed handler. -/
theorem compute_init_no_fallback_witness :
    Compute.init sampleRegistry "bad_backend" 7 =
      Except.error ("No module named pywren_ibm_cloud.compute.backends." ++
        "bad_backend") ∧
    Compute.init failingRegistry "ibm_cf" 7 =
      Except.error "invalid backend credentials" :=
  ⟨(compute_init_no_fallback sampleRegistry "bad_backend" 7).1 _ rfl,
   (compute_init_no_fallback failingRegistry "ibm_cf" 7).2.1 _ _ rfl rfl⟩

/-- Claim C9: `run_job` first creates the per-job directory, then writes
the full job payload as a JSON document to the deterministic path
`<storage-dir>/<bucket>/<jobs-prefix>/<executor-id>/<job-id>/job.json`,
and only after that launches the environment's execution command against
exactly that file as a detached process. -/
theorem run_job_path_and_order (storage_dir jobsPfx : String)
    (get_execution_cmd : String → String) (p : JobPayload) :
    LocalhostHandler.run_job storage_dir jobsPfx get_execution_cmd p =
      [LocalEffect.makedirs (storage_dir ++ "/" ++ p.storage_bucket ++ "/" ++
          jobsPfx ++ "/" ++ p.executor_id ++ "/" ++ p.job_id),
       LocalEffect.write_json (storage_dir ++ "/" ++ p.storage_bucket ++ "/" ++
          jobsPfx ++ "/" ++ p.executor_id ++ "/" ++ p.job_id ++ "/" ++
          "job.json") p,
       LocalEffect.spawn (get_execution_cmd p.runtime_name ++ " run " ++
          (storage_dir ++ "/" ++ p.storage_bucket ++ "/" ++ jobsPfx ++ "/" ++
           p.executor_id ++ "/" ++ p.job_id ++ "/" ++ "job.json"))] := by
  simp only [LocalhostHandler.run_job, os_path_join, string_append_assoc]

/-- Claim C10: a reduce job's descriptor records `total_calls = 1` when
per-object grouping is not in effect (the whole map-results list is the
single reduce call's input), and `total_calls = len(parts_per_object)`
when the map job carries partition counts and per-object grouping is
selected. -/
theorem reduce_total_calls {β : Type} (collab : Collab) (config : PywrenConfig)
    (jobsPfx executor_id reduce_job_id func_name f_src : String)
    (ser : List (List β) → Bytes) (func_module_str : Bytes)
    (parts : Option (List Nat)) (map_futures : List β) (flag : Bool)
    (runtime_memory : Option Nat) (extra_env : Option (List (String × String)))
    (execution_timeout : Option Int)
    (h : isOkDesc (create_reduce_job collab config jobsPfx executor_id
        reduce_job_id func_name f_src ser func_module_str parts map_futures flag
        runtime_memory extra_env execution_timeout).2 = true) :
    descTotalCalls (create_reduce_job collab config jobsPfx executor_id
        reduce_job_id func_name f_src ser func_module_str parts map_futures flag
        runtime_memory extra_env execution_timeout).2 =
      some (match parts, flag with
        | some ps, true => ps.length
        | _, _ => 1) := by
  unfold create_reduce_job at h ⊢
  obtain ⟨heq, -, -⟩ := create_job_ok_eq _ _ _ h
  rw [heq]
  simp only [descTotalCalls, verify_args]
  cases parts with
  | none => simp [reduce_iterdata]
  | some ps =>
    cases flag with
    | false => simp [reduce_iterdata]
    | true => simp [reduce_iterdata, slice_groups_length]

/-- Witness for C10: a reduce job over five map futures with
`parts_per_object = [2, 3]` and per-object grouping yields two reduce
calls. -/
theorem reduce_total_calls_witness :
    (isOkDesc (create_reduce_job okCollab defaultConfig "pywren.jobs" "a5f3e2-0"
        "R000" "my_reduce_function" reduceSrc reduceSer [0, 0, 0]
        (some [2, 3]) [10, 11, 12, 13, 14] true none none none).2 = true) ∧
    descTotalCalls (create_reduce_job okCollab defaultConfig "pywren.jobs" "a5f3e2-0"
        "R000" "my_reduce_function" reduceSrc reduceSer [0, 0, 0]
        (some [2, 3]) [10, 11, 12, 13, 14] true none none none).2 = some 2 :=
  ⟨by decide,
   reduce_total_calls okCollab defaultConfig "pywren.jobs" "a5f3e2-0" "R000"
     "my_reduce_function" reduceSrc reduceSer [0, 0, 0] (some [2, 3])
     [10, 11, 12, 13, 14] true none none none (by decide)⟩

end PyWren
